import Mathlib

/-!
Shallow embedding of the Molpha oracle program (programs/molpha/src) and
proofs about its publish, pricing, node-registry and subscription logic.

Machine integers (`u64`, `u16`, `u8`) are modelled as `Nat`; where the Rust
code performs unchecked `u64` arithmetic whose overflow behaviour matters,
the embedding reduces modulo `U64 = 2^64` (release-build wrapping), and the
theorems carry explicit no-overflow hypotheses so that they also describe
overflow-checked builds, which abort instead of wrapping.  `i64` timestamps
are modelled as `Int`.  Fallible instructions return an explicit result
type; a Rust panic (index out of bounds, division by zero, subtraction
underflow) is modelled by a distinguished `abort` result.
-/

namespace Molpha

/-- Modulus of 64-bit unsigned arithmetic. -/
def U64 : Nat := 2 ^ 64

/-- MAX_NODES from state/node_registry.rs. -/
def MAX_NODES : Nat := 256

/-- MAX_HISTORY from state/feed.rs (the integrated Feed). -/
def MAX_HISTORY : Nat := 20

/-- ProtocolConfig::SCALAR from state/protocol_config.rs. -/
def SCALAR : Nat := 1000000

/-- A 32-byte public key (node identity / program id), modelled as its byte list. -/
abbrev Pubkey := List Nat

/-- Pubkey::default(), the all-zero key, used by the ZeroPubkey check in add_node. -/
def pubkeyDefault : Pubkey := List.replicate 32 0

/-- FeedType from state/feed_types.rs. -/
inductive FeedType where
  | Public
  | Personal
deriving DecidableEq

/-- Answer from state/answer.rs: a 32-byte value and an i64 timestamp. -/
structure Answer where
  value : List Nat
  timestamp : Int
deriving DecidableEq

/-- Feed from state/feed.rs (the integrated subscription + ring-buffer feed). -/
structure Feed where
  name : String
  authority : Pubkey
  feed_type : FeedType
  job_id : List Nat
  data_source_id : List Nat
  balance : Nat
  min_signatures_threshold : Nat
  frequency : Nat
  ipfs_cid : String
  latest_answer : Answer
  answer_history : List Answer
  history_idx : Nat
  subscription_due_time : Int
  price_per_second_scaled : Nat
  priority_fee_allowance : Nat
  consumed_priority_fees : Nat
  created_at : Int
deriving DecidableEq

/-- ProtocolConfig from state/protocol_config.rs, restricted to the fields the
embedded instructions read (authority, reward_percentage, max_priority_fee_coverage
and priority_fee_smoothing_window are never consulted by the embedded logic). -/
structure ProtocolConfig where
  base_price_per_second_scaled : Nat
  frequency_coefficient : Nat
  signers_coefficient : Nat
  priority_fee_buffer_percentage : Nat
deriving DecidableEq

/-- Union of the error enums in error.rs and utils/pricing.rs.  The variants
SubscriptionExpired, MinimumSubscriptionTime, MinimumExtensionTime and
InsufficientPriorityFeeBudget are referenced by the instruction files but are
absent from the FeedError enum in src/error.rs; their names are taken from the
spec (sections 4.3 and 7), which lists exactly these failure kinds. -/
inductive MolphaError where
  | ZeroPubkey
  | MaxNodesReached
  | NodeAlreadyAdded
  | NodeNotFound
  | NotEnoughSignatures
  | InvalidEd25519Instruction
  | InvalidFeedConfig
  | NotSupported
  | NotFeedOwner
  | PastTimestamp
  | FutureTimestamp
  | ZeroValue
  | InsufficientBalance
  | InvalidDataSource
  | SubscriptionExpired
  | MinimumSubscriptionTime
  | MinimumExtensionTime
  | InsufficientPriorityFeeBudget
  | ArithmeticError
  | InvalidInstruction
deriving DecidableEq

/-- Result of an instruction that mutates a Feed: success with the new feed
state, a program error, or a Rust panic (`abort`), which on Solana also
aborts the transaction without committing state. -/
inductive TxResult where
  | ok (feed : Feed)
  | err (e : MolphaError)
  | abort
deriving DecidableEq

/-- Result of a pricing computation: a u64 value or a pricing error. -/
inductive NumResult where
  | ok (v : Nat)
  | error (e : MolphaError)
deriving DecidableEq

/-- Result of a node-registry mutation: the new node list or an error. -/
inductive RegistryResult where
  | ok (nodes : List Pubkey)
  | error (e : MolphaError)
deriving DecidableEq

/-- u64::checked_mul. -/
def checked_mul (a b : Nat) : Option Nat :=
  if a * b < U64 then some (a * b) else none

/-- precise_pow from utils/pricing.rs.  The product `numerator * scalar` is an
unchecked u64 multiplication in the source and is therefore reduced mod U64;
the final multiplication uses checked_mul and errors on overflow. -/
def precise_pow (base numerator denominator scalar : Nat) : NumResult :=
  if numerator = denominator then .ok base
  else
    if (numerator * scalar) % U64 / denominator ≤ scalar then .ok base
    else
      match checked_mul base ((numerator * scalar) % U64 / denominator / scalar) with
      | some v => NumResult.ok v
      | none => NumResult.error .ArithmeticError

/-- calculate_price_per_second_scaled from utils/pricing.rs.  All checked
multiplications error on overflow; the divisions are by the nonzero constants
SCALAR and 100, so checked_div never fails.  The source computes
`86400 / feed.frequency`; callers guard frequency = 0 (a Rust division panic)
before invoking this function. -/
def calculate_price_per_second_scaled (feed : Feed) (config : ProtocolConfig) :
    NumResult :=
  match precise_pow (86400 / feed.frequency) config.frequency_coefficient 10000 SCALAR with
  | .error e => .error e
  | .ok frequency_factor =>
    match precise_pow feed.min_signatures_threshold config.signers_coefficient 10000 SCALAR with
    | .error e => .error e
    | .ok signers_factor =>
      match checked_mul config.base_price_per_second_scaled frequency_factor with
      | none => .error .ArithmeticError
      | some x1 =>
        match checked_mul x1 signers_factor with
        | none => .error .ArithmeticError
        | some x2 =>
          match checked_mul (x2 / SCALAR / SCALAR) config.priority_fee_buffer_percentage with
          | none => .error .ArithmeticError
          | some x3 => .ok (x3 / 100)

/-- A transaction instruction as seen through the instructions sysvar:
a program id and raw data bytes. -/
structure Instruction where
  program_id : Pubkey
  data : List Nat
deriving DecidableEq

/-- The ed25519 builtin program id (an opaque, fixed 32-byte address). -/
def ed25519_program_id : Pubkey := 1 :: List.replicate 31 255

/-- The compute budget program id (an opaque, fixed 32-byte address). -/
def compute_budget_program_id : Pubkey := 2 :: List.replicate 31 255

/-- Little-endian u16 from two bytes. -/
def u16le (lo hi : Nat) : Nat := lo + 256 * hi

/-- Little-endian u64 from a byte list (least significant first). -/
def u64le (bs : List Nat) : Nat := bs.foldr (fun b acc => b + 256 * acc) 0

/-- parse_ed25519_instruction from utils.rs: requires a 16-byte header with
num_signatures = 1, reads the pubkey offset (bytes 6..8), message offset
(bytes 10..12) and message size (bytes 12..14), bounds-checks them, and
returns the 32-byte pubkey and the message bytes. -/
def parse_ed25519_instruction (data : List Nat) : Option (Pubkey × List Nat) :=
  if data.length < 16 ∨ data.getD 0 0 ≠ 1 then none
  else
    if data.length < u16le (data.getD 6 0) (data.getD 7 0) + 32 ∨
        data.length < u16le (data.getD 10 0) (data.getD 11 0) +
          u16le (data.getD 12 0) (data.getD 13 0) then none
    else
      some ((data.drop (u16le (data.getD 6 0) (data.getD 7 0))).take 32,
        (data.drop (u16le (data.getD 10 0) (data.getD 11 0))).take
          (u16le (data.getD 12 0) (data.getD 13 0)))

/-- parse_compute_unit_price from utils/pricing.rs: data must be at least 9
bytes with discriminator 3; returns the u64 price truncated `as u32`. -/
def parse_compute_unit_price (data : List Nat) : Option Nat :=
  if 9 ≤ data.length ∧ data.getD 0 0 = 3 then
    some (u64le ((data.drop 1).take 8) % 2 ^ 32)
  else none

/-- estimate_compute_units from utils/pricing.rs. -/
def estimate_compute_units (node_count history_length : Nat) : Nat :=
  5000 + node_count * 1000 + (if history_length < MAX_HISTORY then 500 else 200)

/-- calculate_priority_fee_from_instructions from utils/pricing.rs: scan the
instructions preceding the current one in order; the first compute-budget
instruction whose data parses as SetComputeUnitPrice determines the fee
`price * estimated_compute_units / 1_000_000`; if none parses, the fee is 0. -/
def calculate_priority_fee_from_instructions :
    List Instruction → Nat → Nat
  | [], _ => 0
  | ix :: rest, ecu =>
    if ix.program_id = compute_budget_program_id then
      match parse_compute_unit_price ix.data with
      | some price => price * ecu / 1000000
      | none => calculate_priority_fee_from_instructions rest ecu
    else calculate_priority_fee_from_instructions rest ecu

/-- The signer-collection loop of publish_answer (publish_answer.rs lines
51-68): scan the given instructions, and for each ed25519-program instruction
that parses, record its signer if the signed message equals the target
message, the signer is a registry member, and it was not already recorded.
The accumulator is the unique_valid_signers vector. -/
def collect_signers (registry : List Pubkey) (message : List Nat) :
    List Instruction → List Pubkey → List Pubkey
  | [], acc => acc
  | ix :: rest, acc =>
    if ix.program_id = ed25519_program_id then
      match parse_ed25519_instruction ix.data with
      | some pm =>
        if pm.2 = message ∧ pm.1 ∈ registry ∧ pm.1 ∉ acc then
          collect_signers registry message rest (acc ++ [pm.1])
        else collect_signers registry message rest acc
      | none => collect_signers registry message rest acc
    else collect_signers registry message rest acc

/-- The distinct valid signers counted by a publish call.  publish_answer
iterates the instructions before the current one in reverse index order,
hence the List.reverse, starting from an empty vector. -/
def publish_signers (prior : List Instruction) (registry : List Pubkey)
    (answer : Answer) : List Pubkey :=
  collect_signers registry answer.value prior.reverse []

/-- The priority fee a publish call derives from the transaction
(publish_answer.rs lines 30-38). -/
def publish_fee (prior : List Instruction) (registry : List Pubkey) (feed : Feed) : Nat :=
  calculate_priority_fee_from_instructions prior
    (estimate_compute_units registry.length feed.answer_history.length)

/-- The ring-buffer update of publish_answer.rs lines 90-98: while the buffer
is shorter than MAX_HISTORY, push and set the cursor to the new length;
otherwise write at the cursor — a Rust index expression that panics (none)
when the cursor is out of bounds — and advance it mod MAX_HISTORY. -/
def update_history (hist : List Answer) (idx : Nat) (a : Answer) :
    Option (List Answer × Nat) :=
  if hist.length < MAX_HISTORY then some (hist ++ [a], hist.length + 1)
  else if idx < hist.length then some (hist.set idx a, (idx + 1) % MAX_HISTORY)
  else none

/-- publish_answer from instructions/publish_answer.rs.  `now` is the clock
timestamp, `prior` the transaction instructions preceding the publish
instruction (in index order), `registry` the node registry's pubkey list.
Each require! is translated in source order; all state changes happen only
after every check has passed. -/
def publish_answer (now : Int) (prior : List Instruction) (registry : List Pubkey)
    (answer : Answer) (feed : Feed) : TxResult :=
  if feed.subscription_due_time ≤ now then .err .SubscriptionExpired
  else if answer.timestamp ≤ feed.latest_answer.timestamp then .err .PastTimestamp
  else if now < answer.timestamp then .err .FutureTimestamp
  else if feed.priority_fee_allowance <
      feed.consumed_priority_fees + publish_fee prior registry feed then
    .err .InsufficientPriorityFeeBudget
  else if (publish_signers prior registry answer).length < feed.min_signatures_threshold then
    .err .NotEnoughSignatures
  else if feed.balance < publish_fee prior registry feed then .err .InsufficientBalance
  else
    match update_history feed.answer_history feed.history_idx answer with
    | some p =>
      .ok { feed with
        balance := feed.balance - publish_fee prior registry feed,
        consumed_priority_fees :=
          feed.consumed_priority_fees + publish_fee prior registry feed,
        latest_answer := answer,
        answer_history := p.1,
        history_idx := p.2 }
    | none => .abort

/-- The on-chain effect of a publish attempt: a failed transaction commits
nothing, so the feed keeps its previous state. -/
def apply_publish (now : Int) (prior : List Instruction) (registry : List Pubkey)
    (answer : Answer) (feed : Feed) : Feed :=
  match publish_answer now prior registry answer feed with
  | .ok f => f
  | .err _ => feed
  | .abort => feed

/-- add_node from instructions/manage_node.rs: reject the zero key, reject a
full registry, then append the key.  The function body contains no membership
check (NodeAlreadyAdded is declared in error.rs but never raised). -/
def add_node (registry : List Pubkey) (node_pubkey : Pubkey) :
    RegistryResult :=
  if node_pubkey = pubkeyDefault then .error .ZeroPubkey
  else if registry.length < MAX_NODES then .ok (registry ++ [node_pubkey])
  else .error .MaxNodesReached

/-- remove_node from instructions/manage_node.rs: retain every entry different
from the key and fail with NodeNotFound when nothing was removed. -/
def remove_node (registry : List Pubkey) (node_pubkey : Pubkey) :
    RegistryResult :=
  if (registry.filter (fun x => x ≠ node_pubkey)).length < registry.length then
    .ok (registry.filter (fun x => x ≠ node_pubkey))
  else .error .NodeNotFound

/-- CreateFeedParams from instructions/create_feed.rs. -/
structure CreateFeedParams where
  name : String
  data_source_id : List Nat
  job_id : List Nat
  feed_type : FeedType
  min_signatures_threshold : Nat
  frequency : Nat
  ipfs_cid : String
deriving DecidableEq

/-- The feed record create_feed fills in before pricing, balance and
subscription fields are set. -/
def feed_base (now : Int) (authority : Pubkey) (params : CreateFeedParams) : Feed :=
  { name := params.name
    authority := authority
    feed_type := params.feed_type
    job_id := params.job_id
    data_source_id := params.data_source_id
    balance := 0
    min_signatures_threshold := params.min_signatures_threshold
    frequency := params.frequency
    ipfs_cid := params.ipfs_cid
    latest_answer := { value := List.replicate 32 0, timestamp := 0 }
    answer_history := []
    history_idx := 0
    subscription_due_time := 0
    price_per_second_scaled := 0
    priority_fee_allowance := 0
    consumed_priority_fees := 0
    created_at := now }

/-- The subscription charge of create_feed:
`(price_per_second_scaled * duration) / SCALAR + priority_fee_budget`, with
both the multiplication and the addition unchecked u64 operations. -/
def subscription_cost (price duration budget : Nat) : Nat :=
  (price * duration % U64 / SCALAR + budget) % U64

/-- create_feed from instructions/create_feed.rs, restricted to its feed
economics.  `data_source_valid` stands for the outcome of the external
data-source checks (compute_data_source_id equality and
verify_data_source_signature, which call keccak/secp256k1 syscalls).
A zero frequency would make calculate_price_per_second_scaled divide by
zero, a Rust panic, modelled as abort. -/
def create_feed (now : Int) (config : ProtocolConfig) (authority : Pubkey)
    (params : CreateFeedParams) (subscription_duration_seconds priority_fee_budget : Nat)
    (data_source_valid : Bool) : TxResult :=
  if params.min_signatures_threshold = 0 then .err .InvalidFeedConfig
  else if params.ipfs_cid.isEmpty then .err .InvalidFeedConfig
  else if subscription_duration_seconds < 86400 then .err .MinimumSubscriptionTime
  else if data_source_valid = false then .err .InvalidDataSource
  else if params.frequency = 0 then .abort
  else
    match calculate_price_per_second_scaled (feed_base now authority params) config with
    | .error e => .err e
    | .ok price =>
      .ok { feed_base now authority params with
        subscription_due_time := now + (subscription_duration_seconds : Int),
        price_per_second_scaled := price,
        priority_fee_allowance := priority_fee_budget,
        consumed_priority_fees := 0,
        balance := subscription_cost price subscription_duration_seconds priority_fee_budget }

/-- extend_subscription from instructions/extend_subscription.rs: require at
least one day, rebase the due time on max(now, current due time), charge
`price * additional_duration / SCALAR + additional_budget`, add the budget to
the allowance and the whole charge to the balance. -/
def extend_subscription (now : Int) (additional_duration_seconds : Nat)
    (additional_priority_fee_budget : Nat) (feed : Feed) : TxResult :=
  if additional_duration_seconds < 86400 then .err .MinimumExtensionTime
  else
    .ok { feed with
      subscription_due_time :=
        (if now < feed.subscription_due_time then feed.subscription_due_time
          else now) + (additional_duration_seconds : Int),
      priority_fee_allowance :=
        (feed.priority_fee_allowance + additional_priority_fee_budget) % U64,
      balance :=
        (feed.balance +
          subscription_cost feed.price_per_second_scaled additional_duration_seconds
            additional_priority_fee_budget) % U64 }

/-- UpdateFeedConfigParams from instructions/update_feed_config.rs. -/
structure UpdateFeedConfigParams where
  min_signatures_threshold : Nat
  frequency : Nat
  ipfs_cid : String
  job_id : List Nat
deriving DecidableEq

/-- update_feed_config from instructions/update_feed_config.rs.  The new
price is computed by calling calculate_price_per_second_scaled on the feed
BEFORE the new threshold and frequency are stored, so it reflects the old
configuration.  `time_left` is an unchecked u64 subtraction
`due_time as u64 - now as u64`: with a non-negative clock it panics
(abort) whenever the subscription is already past due; a zero stored
frequency panics inside the price computation, and a zero new price panics
at the division.  The model covers clocks with 0 ≤ now (i64-to-u64
reinterpretation of negative times is not modelled). -/
def update_feed_config (now : Int) (config : ProtocolConfig)
    (params : UpdateFeedConfigParams) (feed : Feed) : TxResult :=
  if feed.feed_type ≠ FeedType.Personal then .err .NotSupported
  else if params.ipfs_cid.isEmpty then .err .InvalidFeedConfig
  else if params.min_signatures_threshold = 0 then .err .InvalidFeedConfig
  else if feed.frequency = 0 then .abort
  else
    match calculate_price_per_second_scaled feed config with
    | .error e => .err e
    | .ok new_price =>
      if feed.subscription_due_time < now then .abort
      else if new_price = 0 then .abort
      else
        .ok { feed with
          subscription_due_time :=
            now + ((feed.subscription_due_time - now).toNat *
              feed.price_per_second_scaled / new_price : Nat),
          price_per_second_scaled := new_price,
          min_signatures_threshold := params.min_signatures_threshold,
          frequency := params.frequency,
          ipfs_cid := params.ipfs_cid,
          job_id := params.job_id }

/-- Extract the feed balance of a successful result (0 otherwise). -/
def balanceOf : TxResult → Nat
  | .ok f => f.balance
  | _ => 0

/-- Extract the stored price of a successful result (0 otherwise). -/
def priceOf : TxResult → Nat
  | .ok f => f.price_per_second_scaled
  | _ => 0

/-- Extract the subscription due time of a successful result (0 otherwise). -/
def dueOf : TxResult → Int
  | .ok f => f.subscription_due_time
  | _ => 0

/-- Test fixture: node identity A. -/
def pkA : Pubkey := List.replicate 32 1

/-- Test fixture: node identity B. -/
def pkB : Pubkey := List.replicate 32 2

/-- Test fixture: a 32-byte answer value. -/
def msgV : List Nat := List.replicate 32 7

/-- Test fixture: the answer with value msgV at a given timestamp. -/
def answerAt (t : Int) : Answer := { value := msgV, timestamp := t }

/-- Instruction data of an ed25519-verification instruction with one
signature, pubkey at offset 16 and a 32-byte message at offset 48
(header layout per utils.rs). -/
def mkEd25519Data (pk msg : List Nat) : List Nat :=
  [1, 0, 0, 0, 0, 0, 16, 0, 0, 0, 48, 0, 32, 0, 0, 0] ++ pk ++ msg

/-- Test fixture: an ed25519 attestation instruction for msgV by pk. -/
def attIx (pk : Pubkey) : Instruction :=
  { program_id := ed25519_program_id, data := mkEd25519Data pk msgV }

/-- Test fixture: a SetComputeUnitPrice instruction bidding 1000000
micro-lamports per compute unit. -/
def cbIx : Instruction :=
  { program_id := compute_budget_program_id, data := [3, 64, 66, 15, 0, 0, 0, 0, 0] }

/-- Test fixture: creation parameters for a Personal feed with threshold 1
and daily frequency. -/
def testParams : CreateFeedParams :=
  { name := "f", data_source_id := [], job_id := [], feed_type := .Personal,
    min_signatures_threshold := 1, frequency := 86400, ipfs_cid := "cid" }

/-- Test fixture: an Active Personal feed (due time 1000). -/
def testFeed : Feed :=
  { feed_base 0 pkA testParams with
    subscription_due_time := 1000, balance := 50, priority_fee_allowance := 10,
    latest_answer := answerAt 0 }

/-- Test fixture: testFeed with threshold 2. -/
def testFeed2 : Feed := { testFeed with min_signatures_threshold := 2 }

/-- Test fixture: the feed state reached after exactly MAX_HISTORY accepted
publishes — a full history with the write cursor set to 20 by the last
append. -/
def feed20 : Feed :=
  { testFeed with
    latest_answer := answerAt 20,
    answer_history := List.replicate 20 (answerAt 1), history_idx := 20 }

/-- Test fixture: protocol parameters under which
calculate_price_per_second_scaled yields 100 for testParams. -/
def cfg100 : ProtocolConfig :=
  { base_price_per_second_scaled := 100000000000000, frequency_coefficient := 10000,
    signers_coefficient := 10000, priority_fee_buffer_percentage := 100 }

/-- Test fixture: the feed produced by the C8 creation scenario. -/
def scenarioFeed : Feed :=
  { feed_base 0 pkA testParams with
    subscription_due_time := 86400, price_per_second_scaled := 100, balance := 8 }

/-- Test fixture: protocol parameters with a signers exponent of 2
(signers_coefficient 20000), making the price depend on the threshold. -/
def cfgC6 : ProtocolConfig :=
  { base_price_per_second_scaled := 1000000000000, frequency_coefficient := 10000,
    signers_coefficient := 20000, priority_fee_buffer_percentage := 100 }

/-- Test fixture: an Active Personal feed with stored price 2 (the price
cfgC6 yields for threshold 1). -/
def feedC6 : Feed := { testFeed with price_per_second_scaled := 2 }

/-- Test fixture: an update raising the threshold to 2 under cfgC6. -/
def updC6 : UpdateFeedConfigParams :=
  { min_signatures_threshold := 2, frequency := 86400, ipfs_cid := "cid", job_id := [] }

/-- The history state after n publishes, starting from an empty buffer and
applying the ring-buffer update of publish_answer for each accepted answer. -/
def publishN : Nat → Option (List Answer × Nat)
  | 0 => some ([], 0)
  | n + 1 => (publishN n).bind fun p => update_history p.1 p.2 (answerAt (n : Int))

/-- Characterization of the signer-collection loop: a pubkey ends up in the
accumulator iff it started there or some scanned ed25519 instruction parses
to it with the target message and it is a registry member. -/
theorem collect_signers_mem (registry : List Pubkey) (msg : List Nat) (s : Pubkey)
    (ixs : List Instruction) : ∀ acc : List Pubkey,
    (s ∈ collect_signers registry msg ixs acc ↔
      s ∈ acc ∨ (s ∈ registry ∧ ∃ ix, ix ∈ ixs ∧ ix.program_id = ed25519_program_id ∧
        parse_ed25519_instruction ix.data = some (s, msg))) := by
  induction ixs with
  | nil => intro acc; simp [collect_signers]
  | cons ix rest ih =>
    intro acc
    simp only [collect_signers]
    by_cases hprog : ix.program_id = ed25519_program_id
    · rw [if_pos hprog]
      cases hparse : parse_ed25519_instruction ix.data with
      | none =>
        dsimp only
        rw [ih acc]
        simp only [List.mem_cons]
        constructor
        · rintro (h | ⟨hr, ix', hmem, hp, he⟩)
          · exact Or.inl h
          · exact Or.inr ⟨hr, ix', Or.inr hmem, hp, he⟩
        · rintro (h | ⟨hr, ix', hmem, hp, he⟩)
          · exact Or.inl h
          · rcases hmem with rfl | hmem
            · rw [hparse] at he; cases he
            · exact Or.inr ⟨hr, ix', hmem, hp, he⟩
      | some pm =>
        dsimp only
        by_cases hcond : pm.2 = msg ∧ pm.1 ∈ registry ∧ pm.1 ∉ acc
        · rw [if_pos hcond]
          rw [ih (acc ++ [pm.1])]
          obtain ⟨hm, hreg, hnacc⟩ := hcond
          simp only [List.mem_append, List.mem_cons, List.not_mem_nil, or_false]
          constructor
          · rintro ((h | rfl) | ⟨hr, ix', hmem, hp, he⟩)
            · exact Or.inl h
            · refine Or.inr ⟨hreg, ix, Or.inl rfl, hprog, ?_⟩
              rw [hparse, ← hm]
            · exact Or.inr ⟨hr, ix', Or.inr hmem, hp, he⟩
          · rintro (h | ⟨hr, ix', hmem, hp, he⟩)
            · exact Or.inl (Or.inl h)
            · rcases hmem with rfl | hmem
              · rw [hparse] at he
                have hpm : pm = (s, msg) := Option.some.inj he
                exact Or.inl (Or.inr (congrArg Prod.fst hpm).symm)
              · exact Or.inr ⟨hr, ix', hmem, hp, he⟩
        · rw [if_neg hcond]
          rw [ih acc]
          simp only [List.mem_cons]
          constructor
          · rintro (h | ⟨hr, ix', hmem, hp, he⟩)
            · exact Or.inl h
            · exact Or.inr ⟨hr, ix', Or.inr hmem, hp, he⟩
          · rintro (h | ⟨hr, ix', hmem, hp, he⟩)
            · exact Or.inl h
            · rcases hmem with rfl | hmem
              · rw [hparse] at he
                have hpm : pm = (s, msg) := Option.some.inj he
                have hs1 : pm.1 = s := congrArg Prod.fst hpm
                have hs2 : pm.2 = msg := congrArg Prod.snd hpm
                have hin : pm.1 ∈ acc := by
                  by_contra hn
                  exact hcond ⟨hs2, hs1 ▸ hr, hn⟩
                exact Or.inl (hs1 ▸ hin)
              · exact Or.inr ⟨hr, ix', hmem, hp, he⟩
    · rw [if_neg hprog]
      rw [ih acc]
      simp only [List.mem_cons]
      constructor
      · rintro (h | ⟨hr, ix', hmem, hp, he⟩)
        · exact Or.inl h
        · exact Or.inr ⟨hr, ix', Or.inr hmem, hp, he⟩
      · rintro (h | ⟨hr, ix', hmem, hp, he⟩)
        · exact Or.inl h
        · rcases hmem with rfl | hmem
          · exact absurd hp hprog
          · exact Or.inr ⟨hr, ix', hmem, hp, he⟩

/-- The signer-collection loop never records the same signer twice. -/
theorem collect_signers_nodup (registry : List Pubkey) (msg : List Nat)
    (ixs : List Instruction) : ∀ acc : List Pubkey, acc.Nodup →
    (collect_signers registry msg ixs acc).Nodup := by
  induction ixs with
  | nil => intro acc h; simpa [collect_signers] using h
  | cons ix rest ih =>
    intro acc hacc
    simp only [collect_signers]
    by_cases hprog : ix.program_id = ed25519_program_id
    · rw [if_pos hprog]
      cases hparse : parse_ed25519_instruction ix.data with
      | none => exact ih acc hacc
      | some pm =>
        dsimp only
        by_cases hcond : pm.2 = msg ∧ pm.1 ∈ registry ∧ pm.1 ∉ acc
        · rw [if_pos hcond]
          refine ih _ ?_
          simp [List.nodup_append, hacc, List.disjoint_singleton, hcond.2.2]
        · rw [if_neg hcond]; exact ih acc hacc
    · rw [if_neg hprog]; exact ih acc hacc

/-- When no compute-budget instruction precedes the publish instruction,
the derived priority fee is 0. -/
theorem calculate_priority_fee_no_budget_ix (ixs : List Instruction) (ecu : Nat)
    (h : ∀ ix ∈ ixs, ix.program_id ≠ compute_budget_program_id) :
    calculate_priority_fee_from_instructions ixs ecu = 0 := by
  induction ixs with
  | nil => rfl
  | cons ix rest ih =>
    simp only [calculate_priority_fee_from_instructions]
    rw [if_neg (h ix (List.mem_cons_self ix rest))]
    exact ih fun i hi => h i (List.mem_cons_of_mem ix hi)

/-- Characterization of a successful publish: every check passed and the feed
was updated with the fee deduction, the new latest answer and the ring-buffer
write. -/
theorem publish_answer_ok_iff (now : Int) (prior : List Instruction)
    (registry : List Pubkey) (answer : Answer) (feed : Feed) (f : Feed) :
    publish_answer now prior registry answer feed = TxResult.ok f ↔
      now < feed.subscription_due_time ∧
      feed.latest_answer.timestamp < answer.timestamp ∧
      answer.timestamp ≤ now ∧
      feed.consumed_priority_fees + publish_fee prior registry feed ≤
        feed.priority_fee_allowance ∧
      feed.min_signatures_threshold ≤ (publish_signers prior registry answer).length ∧
      publish_fee prior registry feed ≤ feed.balance ∧
      ∃ p, update_history feed.answer_history feed.history_idx answer = some p ∧
        f = { feed with
          balance := feed.balance - publish_fee prior registry feed,
          consumed_priority_fees :=
            feed.consumed_priority_fees + publish_fee prior registry feed,
          latest_answer := answer,
          answer_history := p.1,
          history_idx := p.2 } := by
  constructor
  · intro h
    unfold publish_answer at h
    repeat' split at h
    all_goals try exact TxResult.noConfusion h
    injection h with h'
    exact ⟨by omega, by omega, by omega, by omega, by omega, by omega, _, by assumption, h'.symm⟩
  · rintro ⟨h1, h2, h3, h4, h5, h6, p, heq, rfl⟩
    unfold publish_answer
    rw [if_neg (by omega), if_neg (by omega), if_neg (by omega), if_neg (by omega),
      if_neg (by omega), if_neg (by omega), heq]

/-- C1: In publish_answer, a candidate attestation is counted iff its signed
message equals the published answer's value, its signer is a node-registry
member, and that signer was not already counted; the counted list is
duplicate-free; and in an otherwise publishable state the publish fails with
NotEnoughSignatures whenever the number of distinct counted signers is below
the feed's min_signatures_threshold, regardless of the raw attestation
count. -/
theorem publish_counts_distinct_registry_signers (now : Int)
    (prior : List Instruction) (registry : List Pubkey) (answer : Answer) (feed : Feed)
    (hact : now < feed.subscription_due_time)
    (hpast : feed.latest_answer.timestamp < answer.timestamp)
    (hfut : answer.timestamp ≤ now)
    (hbud : feed.consumed_priority_fees + publish_fee prior registry feed ≤
      feed.priority_fee_allowance) :
    (∀ s, s ∈ publish_signers prior registry answer ↔
      s ∈ registry ∧ ∃ ix, ix ∈ prior ∧ ix.program_id = ed25519_program_id ∧
        parse_ed25519_instruction ix.data = some (s, answer.value)) ∧
    (publish_signers prior registry answer).Nodup ∧
    ((publish_signers prior registry answer).length < feed.min_signatures_threshold →
      publish_answer now prior registry answer feed = TxResult.err .NotEnoughSignatures) := by
  refine ⟨?_, ?_, ?_⟩
  · intro s
    rw [publish_signers, collect_signers_mem]
    simp [List.mem_reverse]
  · exact collect_signers_nodup _ _ _ _ List.nodup_nil
  · intro hlt
    unfold publish_answer
    rw [if_neg (by omega), if_neg (by omega), if_neg (by omega), if_neg (by omega),
      if_pos hlt]

/-- Witness for C1: two raw attestations by the same signer yield one distinct
signer, below threshold 2, so publish fails with NotEnoughSignatures even
though the raw count reaches the threshold. -/
theorem publish_counts_distinct_registry_signers_witness :
    (publish_signers [attIx pkA, attIx pkA] [pkA] (answerAt 5)).length = 1 ∧
    publish_answer 100 [attIx pkA, attIx pkA] [pkA] (answerAt 5) testFeed2 =
      TxResult.err .NotEnoughSignatures :=
  ⟨by decide,
    (publish_counts_distinct_registry_signers 100 [attIx pkA, attIx pkA] [pkA]
      (answerAt 5) testFeed2 (by decide) (by decide) (by decide) (by decide)).2.2
      (by decide)⟩

/-- C2: For an Active feed, a publish whose candidate timestamp is at most
the stored one fails with PastTimestamp, a publish whose candidate timestamp
exceeds the clock fails with FutureTimestamp, every accepted publish stores
the candidate answer with a strictly larger timestamp than before, and any
rejected publish leaves the feed unchanged. -/
theorem publish_timestamp_monotonic (now : Int) (prior : List Instruction)
    (registry : List Pubkey) (answer : Answer) (feed : Feed)
    (hact : now < feed.subscription_due_time) :
    (answer.timestamp ≤ feed.latest_answer.timestamp →
      publish_answer now prior registry answer feed = TxResult.err .PastTimestamp) ∧
    (feed.latest_answer.timestamp < answer.timestamp → now < answer.timestamp →
      publish_answer now prior registry answer feed = TxResult.err .FutureTimestamp) ∧
    (∀ f, publish_answer now prior registry answer feed = TxResult.ok f →
      f.latest_answer = answer ∧
      feed.latest_answer.timestamp < f.latest_answer.timestamp) ∧
    (∀ e, publish_answer now prior registry answer feed = TxResult.err e →
      apply_publish now prior registry answer feed = feed) := by
  refine ⟨?_, ?_, ?_, ?_⟩
  · intro h
    unfold publish_answer
    rw [if_neg (by omega), if_pos h]
  · intro h1 h2
    unfold publish_answer
    rw [if_neg (by omega), if_neg (by omega), if_pos h2]
  · intro f hok
    rcases (publish_answer_ok_iff now prior registry answer feed f).mp hok with
      ⟨_, h2, _, _, _, _, p, hp, rfl⟩
    exact ⟨rfl, h2⟩
  · intro e he
    unfold apply_publish
    rw [he]

/-- Witness for C2 at a concrete input: a stale timestamp is rejected with
PastTimestamp. -/
theorem publish_timestamp_monotonic_witness :
    publish_answer 100 [] [] (answerAt (-1)) testFeed = TxResult.err .PastTimestamp :=
  (publish_timestamp_monotonic 100 [] [] (answerAt (-1)) testFeed (by decide)).1
    (by decide)

/-- C3: The ring-buffer update as implemented sets the cursor to the new
length while the buffer fills, so after the 20th accepted publish the cursor
is 20; the 21st accepted publish then indexes position 20 of the 20-element
history — out of bounds, a Rust panic — instead of wrapping around to
overwrite the oldest entry with cursor 21 mod 20 = 1 as the claim states. -/
theorem ring_buffer_wraparound_bug :
    (publishN 20).map (fun p => (p.1.length, p.2)) = some (20, 20) ∧
    publishN 21 = none ∧
    21 % MAX_HISTORY = 1 := by decide

/-- C4 (amended): under the metered policy a publish that passes the
subscription, timestamp and signature checks is rejected with
InsufficientPriorityFeeBudget when the fee would exceed the priority
allowance, rejected with InsufficientBalance when the fee exceeds the
balance, and otherwise — provided the history write cursor is in bounds —
accepted with the fee deducted from the balance and added to the consumed
priority fees; every rejection leaves the feed unchanged. -/
theorem metered_fee_settlement (now : Int) (prior : List Instruction)
    (registry : List Pubkey) (answer : Answer) (feed : Feed)
    (hact : now < feed.subscription_due_time)
    (hpast : feed.latest_answer.timestamp < answer.timestamp)
    (hfut : answer.timestamp ≤ now)
    (hsig : feed.min_signatures_threshold ≤ (publish_signers prior registry answer).length)
    (hov : feed.consumed_priority_fees + publish_fee prior registry feed < U64) :
    (feed.priority_fee_allowance <
        feed.consumed_priority_fees + publish_fee prior registry feed →
      publish_answer now prior registry answer feed =
        TxResult.err .InsufficientPriorityFeeBudget) ∧
    (feed.consumed_priority_fees + publish_fee prior registry feed ≤
        feed.priority_fee_allowance →
      feed.balance < publish_fee prior registry feed →
      publish_answer now prior registry answer feed =
        TxResult.err .InsufficientBalance) ∧
    (feed.consumed_priority_fees + publish_fee prior registry feed ≤
        feed.priority_fee_allowance →
      publish_fee prior registry feed ≤ feed.balance →
      (feed.answer_history.length < MAX_HISTORY ∨
        feed.history_idx < feed.answer_history.length) →
      ∃ f, publish_answer now prior registry answer feed = TxResult.ok f ∧
        f.balance = feed.balance - publish_fee prior registry feed ∧
        f.consumed_priority_fees =
          feed.consumed_priority_fees + publish_fee prior registry feed) ∧
    (∀ e, publish_answer now prior registry answer feed = TxResult.err e →
      apply_publish now prior registry answer feed = feed) := by
  refine ⟨?_, ?_, ?_, ?_⟩
  · intro h
    unfold publish_answer
    rw [if_neg (by omega), if_neg (by omega), if_neg (by omega), if_pos h]
  · intro h1 h2
    unfold publish_answer
    rw [if_neg (by omega), if_neg (by omega), if_neg (by omega), if_neg (by omega),
      if_neg (by omega), if_pos h2]
  · intro h1 h2 hhist
    have hsome : ∃ p, update_history feed.answer_history feed.history_idx answer =
        some p := by
      unfold update_history
      by_cases hl : feed.answer_history.length < MAX_HISTORY
      · rw [if_pos hl]; exact ⟨_, rfl⟩
      · rw [if_neg hl]
        rcases hhist with hl' | hi
        · exact absurd hl' hl
        · rw [if_pos hi]; exact ⟨_, rfl⟩
    rcases hsome with ⟨p, hp⟩
    exact ⟨_, (publish_answer_ok_iff now prior registry answer feed _).mpr
      ⟨hact, hpast, hfut, h1, hsig, h2, p, hp, rfl⟩, rfl, rfl⟩
  · intro e he
    unfold apply_publish
    rw [he]

/-- Witness for C4 amended theorem: a 1000000-micro-lamport fee bid makes the
derived fee 6500, exceeding the priority allowance of 10, so the publish is
rejected with InsufficientPriorityFeeBudget. -/
theorem metered_fee_settlement_witness :
    publish_fee [cbIx, attIx pkA] [pkA] testFeed = 6500 ∧
    publish_answer 100 [cbIx, attIx pkA] [pkA] (answerAt 5) testFeed =
      TxResult.err .InsufficientPriorityFeeBudget :=
  ⟨by decide,
    (metered_fee_settlement 100 [cbIx, attIx pkA] [pkA] (answerAt 5) testFeed
      (by decide) (by decide) (by decide) (by decide) (by decide)).1 (by decide)⟩

/-- C4 counterexample: in the feed state reached after exactly 20 accepted
publishes (history full, cursor 20) every fee condition of the claim is
satisfied — the fee is 0, within both the balance and the allowance — yet
the publish is not accepted: it aborts on the out-of-bounds history write. -/
theorem metered_fee_acceptance_counterexample :
    publish_fee [attIx pkA] [pkA] feed20 = 0 ∧
    feed20.consumed_priority_fees + publish_fee [attIx pkA] [pkA] feed20 ≤
      feed20.priority_fee_allowance ∧
    publish_fee [attIx pkA] [pkA] feed20 ≤ feed20.balance ∧
    publish_answer 100 [attIx pkA] [pkA] (answerAt 50) feed20 = TxResult.abort := by
  decide

/-- C5: add_node appends an identity that is already present instead of
failing with NodeAlreadyAdded — the registry [pkA] becomes [pkA, pkA], a
duplicate — contradicting the declared (but never raised) NodeAlreadyAdded
error and the spec's registry invariant. -/
theorem add_node_duplicate_bug :
    add_node [pkA] pkA = RegistryResult.ok [pkA, pkA] ∧
    ¬ List.Nodup [pkA, pkA] ∧
    add_node [pkA] pkA ≠ RegistryResult.error .NodeAlreadyAdded := by decide

/-- C6 (amended): update_feed_config on a Personal feed with a non-empty
pointer and positive threshold recomputes the price from the threshold and
frequency stored BEFORE the call (the newly supplied values are stored but do
not enter this call's price computation) and rescales the due time with that
price: new_due_time = now + remaining_seconds * old_price / new_price. -/
theorem update_config_reprices_from_old_params (now : Int) (config : ProtocolConfig)
    (params : UpdateFeedConfigParams) (feed : Feed) (new_price : Nat)
    (hty : feed.feed_type = FeedType.Personal)
    (hcid : params.ipfs_cid.isEmpty = false)
    (hthr : params.min_signatures_threshold ≠ 0)
    (hfreq : feed.frequency ≠ 0)
    (hprice : calculate_price_per_second_scaled feed config = NumResult.ok new_price)
    (hpos : new_price ≠ 0)
    (hact : now ≤ feed.subscription_due_time) :
    update_feed_config now config params feed = TxResult.ok { feed with
      subscription_due_time := now + ((feed.subscription_due_time - now).toNat *
        feed.price_per_second_scaled / new_price : Nat),
      price_per_second_scaled := new_price,
      min_signatures_threshold := params.min_signatures_threshold,
      frequency := params.frequency,
      ipfs_cid := params.ipfs_cid,
      job_id := params.job_id } := by
  unfold update_feed_config
  rw [if_neg (by simp [hty]), if_neg (by simp [hcid]), if_neg hthr, if_neg hfreq,
    hprice]
  dsimp only
  rw [if_neg (by omega), if_neg hpos]

/-- Witness for C6 amended theorem at a concrete input. -/
theorem update_config_reprices_witness :
    update_feed_config 0 cfgC6 updC6 feedC6 = TxResult.ok { feedC6 with
      subscription_due_time := 0 + ((feedC6.subscription_due_time - 0).toNat *
        feedC6.price_per_second_scaled / 2 : Nat),
      price_per_second_scaled := 2,
      min_signatures_threshold := updC6.min_signatures_threshold,
      frequency := updC6.frequency,
      ipfs_cid := updC6.ipfs_cid,
      job_id := updC6.job_id } :=
  update_config_reprices_from_old_params 0 cfgC6 updC6 feedC6 2
    (by decide) (by decide) (by decide) (by decide) (by decide) (by decide) (by decide)

/-- C6 counterexample: with cfgC6 (signers exponent 2), a feed with threshold
1 and stored price 2, and an update raising the threshold to 2: the stored
price after the call is 2 — the price computed from the pre-call threshold —
although recomputation from the newly supplied threshold gives 4, and the due
time is rescaled to 1000 with that old-parameter price rather than to
0 + 1000 * 2 / 4 = 500 as the claim's formula with the new-parameter price
would give. -/
theorem update_config_new_params_counterexample :
    priceOf (update_feed_config 0 cfgC6 updC6 feedC6) = 2 ∧
    calculate_price_per_second_scaled
      { feedC6 with
        min_signatures_threshold := updC6.min_signatures_threshold,
        frequency := updC6.frequency } cfgC6 = NumResult.ok 4 ∧
    (2 : Nat) ≠ 4 ∧
    dueOf (update_feed_config 0 cfgC6 updC6 feedC6) = 1000 ∧
    (1000 : Int) ≠ 0 + ((1000 * 2 / 4 : Nat) : Int) := by decide

/-- C7: precise_pow with denominator 10000 and SCALAR = 10^6 returns the base
unchanged whenever the scaled exponent c * SCALAR / 10000 is at most SCALAR,
and otherwise multiplies the base by the floored quotient of the scaled
exponent by SCALAR, erroring (never wrapping) when that checked
multiplication overflows; every division is a floor division. -/
theorem precise_pow_spec (b c : Nat) (hov : c * SCALAR < U64) :
    (c * SCALAR / 10000 ≤ SCALAR → precise_pow b c 10000 SCALAR = NumResult.ok b) ∧
    (SCALAR < c * SCALAR / 10000 →
      (b * (c * SCALAR / 10000 / SCALAR) < U64 →
        precise_pow b c 10000 SCALAR =
          NumResult.ok (b * (c * SCALAR / 10000 / SCALAR))) ∧
      (U64 ≤ b * (c * SCALAR / 10000 / SCALAR) →
        precise_pow b c 10000 SCALAR = NumResult.error .ArithmeticError)) := by
  unfold precise_pow
  rw [Nat.mod_eq_of_lt hov]
  by_cases hc : c = 10000
  · subst hc
    rw [if_pos rfl]
    exact ⟨fun _ => rfl, fun hgt => absurd hgt (by norm_num [SCALAR])⟩
  · rw [if_neg hc]
    by_cases hle : c * SCALAR / 10000 ≤ SCALAR
    · rw [if_pos hle]
      exact ⟨fun _ => rfl, fun hgt => absurd hle (by omega)⟩
    · rw [if_neg hle]
      unfold checked_mul
      refine ⟨fun h => absurd h hle, fun hgt => ⟨?_, ?_⟩⟩
      · intro hm
        rw [if_pos hm]
      · intro hm
        rw [if_neg (by omega)]

/-- Witness for C7 at concrete inputs: coefficient 20000 gives scaled
exponent 2 * 10^6 > SCALAR and multiplies base 3 by the floored factor 2. -/
theorem precise_pow_spec_witness :
    20000 * SCALAR < U64 ∧ SCALAR < 20000 * SCALAR / 10000 ∧
    precise_pow 3 20000 10000 SCALAR = NumResult.ok 6 := by
  refine ⟨by decide, by decide, ?_⟩
  have h := ((precise_pow_spec 3 20000 (by decide)).2 (by decide)).1 (by decide)
  exact h.trans (by decide)

/-- C8: create_feed rejects durations below 86400 with
MinimumSubscriptionTime, and on success the feed balance equals
price_per_second_scaled * duration / SCALAR + priority_budget with floor
division (stated first with the u64-wrapping cost and then exactly as the
claim's formula under no-overflow bounds). -/
theorem create_feed_cost (now : Int) (config : ProtocolConfig) (authority : Pubkey)
    (params : CreateFeedParams) (dur budget : Nat) (dsv : Bool)
    (hthr : params.min_signatures_threshold ≠ 0)
    (hcid : params.ipfs_cid.isEmpty = false) :
    (dur < 86400 → create_feed now config authority params dur budget dsv =
      TxResult.err .MinimumSubscriptionTime) ∧
    (∀ f, create_feed now config authority params dur budget dsv = TxResult.ok f →
      f.balance = subscription_cost f.price_per_second_scaled dur budget ∧
      f.priority_fee_allowance = budget ∧
      (f.price_per_second_scaled * dur < U64 →
        f.price_per_second_scaled * dur / SCALAR + budget < U64 →
        f.balance = f.price_per_second_scaled * dur / SCALAR + budget)) := by
  constructor
  · intro hdur
    unfold create_feed
    rw [if_neg hthr, if_neg (by simp [hcid]), if_pos hdur]
  · intro f hok
    unfold create_feed at hok
    repeat' split at hok
    all_goals try exact TxResult.noConfusion hok
    injection hok with h'
    subst h'
    dsimp only
    refine ⟨rfl, rfl, ?_⟩
    intro h1 h2
    unfold subscription_cost
    rw [Nat.mod_eq_of_lt h1, Nat.mod_eq_of_lt h2]

/-- Witness for C8: the spec scenario — duration 86400, budget 0, computed
price 100 — yields total cost 100 * 86400 / 10^6 = 8 and balance 8. -/
theorem create_feed_cost_witness :
    create_feed 0 cfg100 pkA testParams 86400 0 true = TxResult.ok scenarioFeed ∧
    scenarioFeed.balance = scenarioFeed.price_per_second_scaled * 86400 / SCALAR + 0 ∧
    scenarioFeed.balance = 8 := by
  have h := (create_feed_cost 0 cfg100 pkA testParams 86400 0 true
    (by decide) (by decide)).2 scenarioFeed (by decide)
  exact ⟨by decide, h.2.2 (by decide) (by decide), by decide⟩

/-- C9 (amended): extend_subscription with additional_duration 43200 is
rejected with MinimumExtensionTime (the minimum is 86400); for any
additional_duration of at least 86400 on a still-Active feed the extension
succeeds with new_due_time = old_due_time + additional_duration. -/
theorem extend_active_feed (now : Int) (d b : Nat) (feed : Feed)
    (hmin : 86400 ≤ d) (hcast : d < 2 ^ 63)
    (hact : now < feed.subscription_due_time) :
    ∃ f, extend_subscription now d b feed = TxResult.ok f ∧
      f.subscription_due_time = feed.subscription_due_time + (d : Int) := by
  unfold extend_subscription
  rw [if_neg (by omega), if_pos hact]
  exact ⟨_, rfl, rfl⟩

/-- Witness for C9 amended theorem at a concrete input. -/
theorem extend_active_feed_witness :
    ∃ f, extend_subscription 100 86400 0 testFeed = TxResult.ok f ∧
      f.subscription_due_time = testFeed.subscription_due_time + (86400 : Int) :=
  extend_active_feed 100 86400 0 testFeed (by decide) (by decide) (by decide)

/-- C9 counterexample: extend with additional_duration 43200 on a still-Active
feed is rejected with MinimumExtensionTime, not accepted with
new_due_time = old_due_time + 43200. -/
theorem extend_min_time_counterexample :
    (100 : Int) < testFeed.subscription_due_time ∧
    extend_subscription 100 43200 0 testFeed = TxResult.err .MinimumExtensionTime := by
  decide

/-- C10: when no compute-budget instruction precedes the publish instruction
the derived priority fee is exactly 0, and an otherwise-valid publish on an
Active feed succeeds with the feed balance and consumed_priority_fees
unchanged by fee settlement. -/
theorem publish_zero_priority_fee (now : Int) (prior : List Instruction)
    (registry : List Pubkey) (answer : Answer) (feed : Feed)
    (hnocb : ∀ ix ∈ prior, ix.program_id ≠ compute_budget_program_id)
    (hact : now < feed.subscription_due_time)
    (hpast : feed.latest_answer.timestamp < answer.timestamp)
    (hfut : answer.timestamp ≤ now)
    (hbud : feed.consumed_priority_fees ≤ feed.priority_fee_allowance)
    (hsig : feed.min_signatures_threshold ≤ (publish_signers prior registry answer).length)
    (hhist : feed.answer_history.length < MAX_HISTORY ∨
      feed.history_idx < feed.answer_history.length) :
    publish_fee prior registry feed = 0 ∧
    ∃ f, publish_answer now prior registry answer feed = TxResult.ok f ∧
      f.balance = feed.balance ∧
      f.consumed_priority_fees = feed.consumed_priority_fees := by
  have hfee : publish_fee prior registry feed = 0 :=
    calculate_priority_fee_no_budget_ix prior _ hnocb
  refine ⟨hfee, ?_⟩
  have hsome : ∃ p, update_history feed.answer_history feed.history_idx answer =
      some p := by
    unfold update_history
    by_cases hl : feed.answer_history.length < MAX_HISTORY
    · rw [if_pos hl]; exact ⟨_, rfl⟩
    · rw [if_neg hl]
      rcases hhist with hl' | hi
      · exact absurd hl' hl
      · rw [if_pos hi]; exact ⟨_, rfl⟩
  rcases hsome with ⟨p, hp⟩
  refine ⟨_, (publish_answer_ok_iff now prior registry answer feed _).mpr
    ⟨hact, hpast, hfut, by omega, hsig, by omega, p, hp, rfl⟩, ?_, ?_⟩
  · dsimp only
    omega
  · dsimp only
    omega

/-- Witness for C10 at a concrete input: one valid attestation and no
compute-budget instruction in the transaction. -/
theorem publish_zero_priority_fee_witness :
    publish_fee [attIx pkA] [pkA] testFeed = 0 ∧
    ∃ f, publish_answer 100 [attIx pkA] [pkA] (answerAt 5) testFeed = TxResult.ok f ∧
      f.balance = testFeed.balance ∧
      f.consumed_priority_fees = testFeed.consumed_priority_fees :=
  publish_zero_priority_fee 100 [attIx pkA] [pkA] (answerAt 5) testFeed
    (by decide) (by decide) (by decide) (by decide) (by decide) (by decide) (by decide)

end Molpha
